import Mathlib

/-!
Verification development for the clinic-intake voice agent
(`backend/agent/agent.py` and `backend/agent/app/routes/sessions.py`).

The Python helpers are shallowly embedded as executable Lean functions.
Python `str` methods are modelled on Lean `String`/`List Char`:
`strip` as `pyStrip`, `lower`/`upper` as character-wise `pyLower`/`pyUpper`
(adequate for the ASCII data handled here), `str.startswith` and the
`in` substring test as structural recursions over `List Char`, and the
float comparisons `> len * 0.5` / `< len * 0.3` as the exact integer
comparisons `2 * d > len` / `10 * a < 3 * len`.
External collaborators (the Ollama chat call, the knowledge query, the
session-store HTTP reads) are passed in as explicit outcome parameters.
-/

namespace IntakeAgent

/-- Python `needle_str.startswith` / list-prefix test: `listIsPre needle hay`
is `true` iff `needle` is a prefix of `hay`. -/
def listIsPre : List Char → List Char → Bool
  | [], _ => true
  | _ :: _, [] => false
  | a :: as, b :: bs => a == b && listIsPre as bs

/-- Substring occurrence test on char lists (Python `needle in hay`):
true iff `needle` occurs contiguously in `hay`. -/
def containsSub : List Char → List Char → Bool
  | [], needle => listIsPre needle []
  | h :: t, needle => listIsPre needle (h :: t) || containsSub t needle

/-- Python `s.startswith(p)`. -/
def strStartsWith (s p : String) : Bool := listIsPre p.toList s.toList

/-- Python `p in s` (substring containment). -/
def strContains (s p : String) : Bool := containsSub s.toList p.toList

/-- Python `s.strip()`: drop leading and trailing whitespace. -/
def pyStrip (s : String) : String :=
  ⟨((s.toList.dropWhile Char.isWhitespace).reverse.dropWhile Char.isWhitespace).reverse⟩

/-- Python `s.lower()` (character-wise, adequate for the ASCII data here). -/
def pyLower (s : String) : String := ⟨s.toList.map Char.toLower⟩

/-- Python `s.upper()` (character-wise, adequate for the ASCII data here). -/
def pyUpper (s : String) : String := ⟨s.toList.map Char.toUpper⟩

/-- Python `s.replace(" ", "")`: drop every space character. -/
def pyReplaceSpace (s : String) : String := ⟨s.toList.filter (fun c => c != ' ')⟩

/-- Python `s.isdigit()`: non-empty and every character a digit. -/
def pyIsDigitStr (s : String) : Bool := s.toList != [] && s.toList.all Char.isDigit

/-- `any(word in text for word in words)` as used throughout the agent. -/
def containsAny (text : String) (words : List String) : Bool :=
  words.any (fun w => strContains text w)

/-- `validate_name_basic` from `agent.py`: rule-based name validation,
returning `(is_valid, reason)`. -/
def validate_name_basic (name0 : String) : Bool × String :=
  let name := pyStrip name0
  if name.length < 2 then (false, "too_short")
  else if pyIsDigitStr (pyReplaceSpace name) then (false, "only_numbers")
  else if !(name.toList.any Char.isAlpha) then (false, "no_letters")
  else if 2 * (name.toList.filter Char.isDigit).length > name.length then
    (false, "too_many_numbers")
  else (true, "ok")

/-- `validate_phone_basic` from `agent.py`: keep only digits, require
between 7 and 15 of them. -/
def validate_phone_basic (phone : String) : Bool × String :=
  let digits := phone.toList.filter Char.isDigit
  if digits.length < 7 then (false, "too_short")
  else if digits.length > 15 then (false, "too_long")
  else (true, "ok")

/-- `validate_with_llm` from `agent.py`. The `ollama.chat` call is an
external collaborator; its outcome is the `chatResult` parameter
(`Except.error` for any raised exception, `Except.ok content` for the
reply text). On success the answer is stripped, upper-cased and checked
for the substring `"YES"`; on any exception the value is accepted with
reason `"error_fallback"`. -/
def validate_with_llm (value field_type : String)
    (chatResult : Except String String) : Bool × String :=
  match value, field_type, chatResult with
  | _, _, Except.error _ => (true, "error_fallback")
  | _, _, Except.ok content =>
    let answer := pyUpper (pyStrip content)
    (strContains answer "YES", answer)

/-- `STT_GARBAGE_PATTERNS` from `agent.py` (verbatim, including the
leading empty string commented `# Empty` in the source). -/
def STT_GARBAGE_PATTERNS : List String :=
  ["", " ", ".", "...", "hmm", "uh", "um", "ah",
   "[inaudible]", "[music]", "[noise]",
   "thank you for watching", "please subscribe"]

/-- The punctuation set of `is_stt_unclear`: `".,!?;:-'"`. -/
def PUNCT_CHARS : List Char := ".,!?;:-\x27".toList

/-- `all(c in ".,!?;:-'" for c in text.replace(" ", ""))`. -/
def onlyPunct (t : String) : Bool :=
  (pyReplaceSpace t).toList.all (fun c => PUNCT_CHARS.contains c)

/-- The garbage-pattern loop of `is_stt_unclear`:
`text == pattern.lower() or text.startswith(pattern.lower())`. -/
def matchesGarbage (t : String) : Bool :=
  STT_GARBAGE_PATTERNS.any (fun p => t == pyLower p || strStartsWith t (pyLower p))

/-- Count of alphanumeric characters (`sum(1 for c in text if c.isalnum())`). -/
def alnumCount (t : String) : Nat := (t.toList.filter Char.isAlphanum).length

/-- `is_stt_unclear` from `agent.py`: classify an utterance as
unclear/garbage, returning `(is_unclear, reason)`.  The checks appear in
source order; the float threshold `len(text) * 0.3` is modelled exactly
as `3 * len / 10`. -/
def is_stt_unclear (text0 : String) (field_type : Option String) : Bool × String :=
  let text := pyLower (pyStrip text0)
  if text.length < 1 then (true, "empty")
  else if onlyPunct text then (true, "only_punctuation")
  else if matchesGarbage text then (true, "garbage_pattern")
  else if field_type == some "name" && text.length < 2 then
    (true, "too_short_for_name")
  else if (pyReplaceSpace text).toList.eraseDups.length == 1 && text.length > 2 then
    (true, "repeated_char")
  else if text.length > 3 && 10 * alnumCount text < 3 * text.length then
    (true, "mostly_symbols")
  else (false, "ok")

/-- `get_repair_message` from `agent.py`: escalating repair prompts per
field type and attempt number (the `reason` argument is unused in the
source as well). -/
def get_repair_message (field_type : String) (reason : String) (attempt : Nat) : String :=
  let _ := reason
  if attempt == 1 then
    if field_type == "name" then
      "Sorry, I didn\x27t catch that. Could you please say your name again?"
    else if field_type == "phone" then
      "Sorry, I didn\x27t hear that clearly. Could you repeat your phone number slowly?"
    else "Sorry, could you please repeat that?"
  else if attempt == 2 then
    if field_type == "name" then
      "I\x27m having trouble hearing. Could you spell your name for me?"
    else if field_type == "phone" then
      "Please say each digit separately. For example: zero, three, zero, zero..."
    else "Could you speak a bit louder and slower please?"
  else
    "I apologize for the trouble. Let\x27s try one more time. Please speak clearly."

/-- A value stored in a session's `collected_data` map: the agent saves
strings for name/phone/document fields and a boolean for
`has_medical_history`. -/
inductive SValue where
  | s : String → SValue
  | b : Bool → SValue
deriving DecidableEq

/-- The session store's `collected_data` mapping, in insertion order
(Python `dict` semantics). -/
abbrev Store := List (String × SValue)

/-- Python `data[field] = value`: upsert preserving the position of an
existing key, appending a new key at the end. -/
def dictUpsert : Store → String → SValue → Store
  | [], f, v => [(f, v)]
  | (k, w) :: rest, f, v =>
    if k = f then (k, v) :: rest else (k, w) :: dictUpsert rest f v

/-- `save_answer` (the `POST /{session_id}/answers` route body, also the
effect of the agent's `api_client.save_answer`): upsert one field. -/
def save_answer (store : Store) (field : String) (value : SValue) : Store :=
  dictUpsert store field value

/-- Python `dict` key lookup. -/
def dictGet : Store → String → Option SValue
  | [], _ => none
  | (k, w) :: rest, f => if k = f then some w else dictGet rest f

/-- How a stored value renders inside a Python f-string. -/
def svalueText : SValue → String
  | SValue.s v => v
  | SValue.b v => if v then "True" else "False"

/-- `collected_data.get("full_name", "your name")` as used when building
the confirmation prompt. -/
def getFullNameD (store : Store) : String :=
  match dictGet store "full_name" with
  | some v => svalueText v
  | none => "your name"

/-- Affirmative tokens of the `confirm_info` branch. -/
def confirm_yes_words : List String :=
  ["yes", "yeah", "yep", "haan", "han", "hai", "correct", "sahi", "theek", "right"]

/-- Negative tokens of the `confirm_info` branch. -/
def confirm_no_words : List String :=
  ["no", "nahi", "nope", "wrong", "galat", "incorrect"]

/-- `ask_correction` tokens selecting name re-collection. -/
def correction_name_words : List String := ["name", "naam", "my name"]

/-- `ask_correction` tokens selecting phone re-collection (note `"no"`). -/
def correction_phone_words : List String :=
  ["phone", "number", "contact", "fone", "no", "mobile"]

/-- `ask_correction` tokens selecting both fields. -/
def correction_both_words : List String := ["both", "dono", "sab"]

/-- Affirmative tokens of the `medical_history` branch. -/
def medical_yes_words : List String :=
  ["yes", "yeah", "yep", "haan", "han", "hai", "hein"]

/-- `waiting_upload` skip tokens. -/
def skip_words : List String :=
  ["no", "nahi", "nope", "skip", "don\x27t have", "nothing", "later",
   "baad mein", "koi nahi"]

/-- `waiting_upload` upload-confirmation tokens. -/
def upload_done_words : List String :=
  ["done", "uploaded", "ready", "yes", "okay", "ok", "ho gaya", "kar diya", "upload"]

/-- The per-session `ctx.proc.userdata` keys read and written by
`_process_and_speak_intake`, with the defaults used by the
`.get(key, default)` reads (`temp_name` is read but never written by the
source, hence always its default `""`). -/
structure Userdata where
  intake_state : String := "greeting"
  intake_mode : String := "ask"
  intake_current_key : Option String := none
  name_repair_attempts : Nat := 0
  name_retries : Nat := 0
  phone_repair_attempts : Nat := 0
  phone_retries : Nat := 0
  temp_name : String := ""
  collected_name : String := ""
  collected_phone : String := ""
  recollecting : Option String := none
  rag_context : String := ""
deriving DecidableEq

/-- Outcomes of the external collaborators a single intake step may
consult: the `ollama.chat` call inside `validate_with_llm`, the
`query_knowledge("clinic services", top_k=10)` context, and whether the
`get_collected_data()` HTTP read succeeds. -/
structure Collab where
  chat : Except String String := Except.error "unavailable"
  kb : Except String String := Except.error "unavailable"
  getDataOk : Bool := true

/-- Result of one `_process_and_speak_intake` invocation: the updated
userdata, the updated session store, and the utterance spoken (if any —
the unknown-state fallback only logs). -/
structure StepResult where
  ud : Userdata
  store : Store
  said : Option String
deriving DecidableEq

/-- `_process_and_speak_intake` from `agent.py`: one transition of the
intake state machine on a finalized user utterance.  `schema` models the
`intake_schema.get(key, {}).get("prompt_en", default)` lookups. -/
def process_and_speak_intake (schema : String → Option String) (co : Collab)
    (user_text : String) (ud : Userdata) (store : Store) : StepResult :=
  if ud.intake_state = "greeting" then
    { ud := { ud with intake_state := "collecting", intake_current_key := some "full_name" },
      store := store,
      said := some "Great to hear! This basic information is required to proceed. May I have your full name please?" }
  else if ud.intake_state = "collecting" ∧ ud.intake_current_key = some "full_name" then
    let name_value := pyStrip user_text
    let unc := is_stt_unclear name_value (some "name")
    let repair_attempts := ud.name_repair_attempts
    if unc.1 = true ∧ repair_attempts < 3 then
      { ud := { ud with name_repair_attempts := repair_attempts + 1 },
        store := store,
        said := some (get_repair_message "name" unc.2 (repair_attempts + 1)) }
    else
      let ud1 := { ud with name_repair_attempts := 0 }
      let name_retries := ud1.name_retries
      let v := validate_name_basic name_value
      let accept : StepResult :=
        { ud := { ud1 with name_retries := 0, intake_current_key := some "phone" },
          store := save_answer store "full_name" (SValue.s name_value),
          said := some ("Thank you " ++ name_value ++ ". What is your contact number?") }
      if v.1 = false ∧ name_retries < 2 then
        let llm := validate_with_llm name_value "name" co.chat
        if llm.1 = false then
          let retry_msg :=
            if v.2 = "only_numbers" then "That seems like a number. Please tell me your name."
            else if v.2 = "too_short" then "Could you please tell me your complete name?"
            else "I didn\x27t catch that properly. Could you please tell me your full name again?"
          { ud := { ud1 with name_retries := name_retries + 1 },
            store := store, said := some retry_msg }
        else accept
      else accept
  else if ud.intake_state = "collecting" ∧ ud.intake_current_key = some "phone" then
    let phone_value := pyStrip user_text
    let unc := is_stt_unclear phone_value (some "phone")
    let repair_attempts := ud.phone_repair_attempts
    if unc.1 = true ∧ repair_attempts < 3 then
      { ud := { ud with phone_repair_attempts := repair_attempts + 1 },
        store := store,
        said := some (get_repair_message "phone" unc.2 (repair_attempts + 1)) }
    else
      let ud1 := { ud with phone_repair_attempts := 0 }
      let phone_retries := ud1.phone_retries
      let v := validate_phone_basic phone_value
      let accept : StepResult :=
        let store2 := save_answer store "phone" (SValue.s phone_value)
        let saved_name := if co.getDataOk then getFullNameD store2 else "your name"
        { ud := { ud1 with
                    phone_retries := 0
                    collected_name := ud1.temp_name
                    collected_phone := phone_value
                    intake_state := "confirm_info"
                    intake_current_key := some "confirm_info" },
          store := store2,
          said := some ("Let me confirm: Your name is " ++ saved_name ++
            " and phone number is " ++ phone_value ++
            ". Is that correct? Please say yes or no.") }
      if v.1 = false ∧ phone_retries < 2 then
        let llm := validate_with_llm phone_value "phone" co.chat
        if llm.1 = false then
          let retry_msg :=
            if v.2 = "too_short" then
              "That phone number seems incomplete. Please tell me your full 10 or 11 digit number."
            else "I need your complete phone number with all digits. Please say it again slowly."
          { ud := { ud1 with phone_retries := phone_retries + 1 },
            store := store, said := some retry_msg }
        else accept
      else accept
  else if ud.intake_state = "confirm_info" then
    let user_lower := pyStrip (pyLower user_text)
    let is_confirmed := containsAny user_lower confirm_yes_words
    let is_denied := containsAny user_lower confirm_no_words
    if is_confirmed = true then
      { ud := { ud with
                  intake_state := "medical_history"
                  intake_current_key := some "medical_history" },
        store := store,
        said := some "Perfect! Do you have any medical history or previous reports to share? Please say yes or no." }
    else if is_denied = true then
      { ud := { ud with
                  intake_state := "ask_correction"
                  intake_current_key := some "ask_correction" },
        store := store,
        said := some "No problem. What would you like to correct - your name or phone number?" }
    else
      { ud := ud, store := store,
        said := some "Sorry, I didn\x27t catch that. Is the information correct? Please say yes or no." }
  else if ud.intake_state = "ask_correction" then
    let user_lower := pyStrip (pyLower user_text)
    let wants_name := containsAny user_lower correction_name_words
    let wants_phone := containsAny user_lower correction_phone_words
    let wants_both := containsAny user_lower correction_both_words
    if wants_name = true ∨ wants_both = true then
      { ud := { ud with
                  intake_state := "collecting"
                  intake_current_key := some "full_name"
                  recollecting := some (if wants_both = false then "name" else "both") },
        store := store,
        said := some "Okay, please tell me your correct name." }
    else if wants_phone = true then
      { ud := { ud with intake_state := "collecting", intake_current_key := some "phone" },
        store := store,
        said := some "Okay, please tell me your correct phone number." }
    else
      { ud := ud, store := store,
        said := some "Please tell me what to correct - say \x27name\x27 or \x27phone number\x27." }
  else if ud.intake_state = "medical_history" then
    let user_lower := pyStrip (pyLower user_text)
    let has_history := containsAny user_lower medical_yes_words
    let store2 := save_answer store "has_medical_history" (SValue.b has_history)
    if has_history = true then
      { ud := { ud with
                  intake_state := "waiting_upload"
                  intake_current_key := some "waiting_upload" },
        store := store2,
        said := some ((schema "upload_prompt").getD
          "Please upload your medical document using the upload button on your screen. I\x27ll wait for you.") }
    else
      let rag_ctx := match co.kb with | Except.ok c => c | Except.error _ => ""
      { ud := { ud with
                  intake_state := "rag"
                  intake_mode := "rag"
                  intake_current_key := none
                  rag_context := rag_ctx },
        store := store2,
        said := some ((schema "no_medical_history_response").getD "Okay, no problem." ++ " " ++
          (schema "rag_mode_prompt").getD
            "Thank you! Your information has been saved. Now you can ask me any questions about our clinic services.") }
  else if ud.intake_state = "waiting_upload" then
    let user_lower := pyStrip (pyLower user_text)
    if containsAny user_lower skip_words = true then
      let rag_ctx := match co.kb with | Except.ok c => c | Except.error _ => ""
      { ud := { ud with
                  intake_state := "rag"
                  intake_mode := "rag"
                  intake_current_key := none
                  rag_context := rag_ctx },
        store := store,
        said := some "No problem! Your information has been saved. Now you can ask me any questions about our clinic services." }
    else if containsAny user_lower upload_done_words = true then
      { ud := { ud with
                  intake_state := "document_questions"
                  intake_current_key := some "document_type" },
        store := store,
        said := some "Thank you for uploading. Is this document an X-ray, a lab report, or a medical prescription?" }
    else
      { ud := ud, store := store,
        said := some "Please upload your document and say \x27done\x27 when ready. Or say \x27skip\x27 if you don\x27t have any." }
  else if ud.intake_state = "document_questions" then
    if ud.intake_current_key = some "document_type" then
      { ud := { ud with intake_current_key := some "document_date" },
        store := save_answer store "document_type" (SValue.s (pyStrip user_text)),
        said := some "When was this document created? You can give an approximate date." }
    else if ud.intake_current_key = some "document_date" then
      { ud := { ud with intake_current_key := some "document_findings" },
        store := save_answer store "document_date" (SValue.s (pyStrip user_text)),
        said := some "In a few words, what did the doctor say about this document or what were the findings?" }
    else if ud.intake_current_key = some "document_findings" then
      let rag_ctx := match co.kb with | Except.ok c => c | Except.error _ => ""
      { ud := { ud with
                  intake_state := "rag"
                  intake_mode := "rag"
                  intake_current_key := none
                  rag_context := rag_ctx },
        store := save_answer store "document_findings" (SValue.s (pyStrip user_text)),
        said := some ((schema "rag_mode_prompt").getD
          "Thank you! Your information has been saved. Now you can ask me any questions about our clinic services.") }
    else { ud := ud, store := store, said := none }
  else { ud := ud, store := store, said := none }

/-- `should_backchannel` from `agent.py`.  The source reads the global
`_backchannel_counter["last_used"]` and calls `random.random() < 0.5`;
both are explicit parameters here (`coinSkip` is the event
`random.random() < 0.5`, which makes the source return `False`). -/
def should_backchannel (user_text : String) (turn_number last_used : Nat)
    (coinSkip : Bool) : Bool :=
  if turn_number < 2 then false
  else if (pyStrip user_text).length < 30 then false
  else if turn_number - last_used < 2 then false
  else if coinSkip then false
  else true

/-- The per-session RAG turn counter `rag_turn_count` together with the
backchannel tracker `_backchannel_counter["last_used"]` (both start at 0). -/
structure BCState where
  rag_turn_count : Nat := 0
  last_used : Nat := 0
deriving DecidableEq

/-- The backchannel logic of one `_handle_rag_query` turn: read the turn
number, increment the counter, and if `should_backchannel` fires, speak a
backchannel and `mark_backchannel_used(turn_number)`.  Returns the new
state and whether a backchannel was prepended this turn. -/
def rag_turn_backchannel (st : BCState) (user_query : String) (coinSkip : Bool) :
    BCState × Bool :=
  let turn_number := st.rag_turn_count
  if should_backchannel user_query turn_number st.last_used coinSkip then
    ({ rag_turn_count := turn_number + 1, last_used := turn_number }, true)
  else
    ({ st with rag_turn_count := turn_number + 1 }, false)

/-- A whole sequence of RAG-mode turns (each input is the user query and
the coin-flip outcome); returns the final state and the list of turn
numbers on which a backchannel was prepended, in order. -/
def rag_backchannel_run (st : BCState) : List (String × Bool) → BCState × List Nat
  | [] => (st, [])
  | (q, c) :: rest =>
    let turn := st.rag_turn_count
    let r := rag_turn_backchannel st q c
    let r' := rag_backchannel_run r.1 rest
    (r'.1, if r.2 then turn :: r'.2 else r'.2)

/-- A `ConversationSession` row as created by the `POST /v1/sessions`
route in `app/routes/sessions.py`. -/
structure ConversationSession where
  state : String := "GREETING"
  collected_data : Store := []
  transcript : String := ""
deriving DecidableEq

/-- The `POST /{session_id}/answers` route body on a found session:
copy `collected_data`, upsert `data[field] = value`, store it back. -/
def route_save_answer (sess : ConversationSession) (field : String)
    (value : SValue) : ConversationSession :=
  { sess with collected_data := dictUpsert sess.collected_data field value }

/-- The `collected_data` component of the `GET /{session_id}` response. -/
def route_get_collected_data (sess : ConversationSession) : Store :=
  sess.collected_data

/-- An intake schema with no overrides: every
`intake_schema.get(key, {}).get("prompt_en", default)` lookup falls back
to the default prompt, as when the schema file lacks the key. -/
def schema0 : String → Option String := fun _ => none

/-- Concrete collaborator outcomes for witnesses: the LLM validator
replies `"YES"`, the knowledge query returns an empty context, and the
`get_collected_data` read succeeds. -/
def co0 : Collab := { chat := Except.ok "YES", kb := Except.ok "", getDataOk := true }

/-- Userdata while collecting the name, all counters zero. -/
def collectNameStart : Userdata :=
  { intake_state := "collecting", intake_current_key := some "full_name" }

/-- Userdata while collecting the name with the validation-retry counter
already at its ceiling 2. -/
def nameRetry2State : Userdata :=
  { intake_state := "collecting", intake_current_key := some "full_name",
    name_retries := 2 }

/-- Userdata while collecting the phone with `n` repair attempts recorded. -/
def phoneRepairState (n : Nat) : Userdata :=
  { intake_state := "collecting", intake_current_key := some "phone",
    phone_repair_attempts := n }

/-- Userdata in the `confirm_info` state. -/
def confirmInfoState : Userdata :=
  { intake_state := "confirm_info", intake_current_key := some "confirm_info" }

/-- Userdata in the `ask_correction` state. -/
def askCorrectionState : Userdata :=
  { intake_state := "ask_correction", intake_current_key := some "ask_correction" }

/-- Userdata in the `medical_history` state. -/
def medicalHistoryState : Userdata :=
  { intake_state := "medical_history", intake_current_key := some "medical_history" }

/-- A demo session row holding one collected field. -/
def demoSession : ConversationSession :=
  { state := "GREETING", collected_data := [("full_name", SValue.s "Ali")],
    transcript := "" }

/-- Three RAG turns: two short queries, then a long query with the coin
flip allowing a backchannel on turn number 2. -/
def bcDemoInputs : List (String × Bool) :=
  [("hi", false), ("hi", false),
   ("could you tell me about the clinic opening hours please", false)]

/-- The empty string heads `STT_GARBAGE_PATTERNS`, and
`text.startswith("")` holds for every text, so the garbage-pattern loop
matches every input. -/
lemma matchesGarbage_true (t : String) : matchesGarbage t = true := by
  have h : strStartsWith t (pyLower "") = true := rfl
  simp only [matchesGarbage, STT_GARBAGE_PATTERNS, List.any_cons, h, Bool.or_true,
    Bool.true_or]

/-- Consequence: `is_stt_unclear` classifies every utterance as unclear —
every branch that can return before the garbage-pattern loop also returns
`true`, and the loop itself always matches. -/
lemma is_stt_unclear_fst (text : String) (ft : Option String) :
    (is_stt_unclear text ft).1 = true := by
  simp only [is_stt_unclear]
  split_ifs with h1 h2 h3 <;> first | rfl | exact absurd (matchesGarbage_true _) h3

/-- While collecting the name with fewer than 3 repair attempts, any
utterance (all are classified unclear) takes the repair branch: the
repair counter increments, nothing is saved, and the repair prompt for
the new attempt number is spoken. -/
lemma process_name_repair (schema : String → Option String) (co : Collab)
    (u : String) (ud : Userdata) (store : Store)
    (hs : ud.intake_state = "collecting") (hk : ud.intake_current_key = some "full_name")
    (hr : ud.name_repair_attempts < 3) :
    process_and_speak_intake schema co u ud store =
      { ud := { ud with name_repair_attempts := ud.name_repair_attempts + 1 },
        store := store,
        said := some (get_repair_message "name"
          (is_stt_unclear (pyStrip u) (some "name")).2 (ud.name_repair_attempts + 1)) } := by
  have hu := is_stt_unclear_fst (pyStrip u) (some "name")
  simp +decide [process_and_speak_intake, hs, hk, hu, hr]

/-- Phone-field analogue of `process_name_repair`. -/
lemma process_phone_repair (schema : String → Option String) (co : Collab)
    (u : String) (ud : Userdata) (store : Store)
    (hs : ud.intake_state = "collecting") (hk : ud.intake_current_key = some "phone")
    (hr : ud.phone_repair_attempts < 3) :
    process_and_speak_intake schema co u ud store =
      { ud := { ud with phone_repair_attempts := ud.phone_repair_attempts + 1 },
        store := store,
        said := some (get_repair_message "phone"
          (is_stt_unclear (pyStrip u) (some "phone")).2 (ud.phone_repair_attempts + 1)) } := by
  have hu := is_stt_unclear_fst (pyStrip u) (some "phone")
  simp +decide [process_and_speak_intake, hs, hk, hu, hr]

/-- While collecting the phone with the repair ceiling reached, the value
is saved and the phase advances to `confirm_info` whenever the basic
validator accepts, or the retry ceiling is reached, or the LLM validator
accepts. -/
lemma process_phone_accept (schema : String → Option String) (co : Collab)
    (u : String) (ud : Userdata) (store : Store)
    (hs : ud.intake_state = "collecting") (hk : ud.intake_current_key = some "phone")
    (hr : 3 ≤ ud.phone_repair_attempts)
    (hacc : (validate_phone_basic (pyStrip u)).1 = true ∨ 2 ≤ ud.phone_retries ∨
            (validate_with_llm (pyStrip u) "phone" co.chat).1 = true) :
    (process_and_speak_intake schema co u ud store).ud.intake_state = "confirm_info" ∧
    (process_and_speak_intake schema co u ud store).ud.intake_current_key = some "confirm_info" ∧
    (process_and_speak_intake schema co u ud store).ud.phone_retries = 0 ∧
    (process_and_speak_intake schema co u ud store).ud.phone_repair_attempts = 0 ∧
    (process_and_speak_intake schema co u ud store).store
      = save_answer store "phone" (SValue.s (pyStrip u)) := by
  have hr' : ¬ (ud.phone_repair_attempts < 3) := by omega
  rcases hacc with h | h | h
  · simp +decide [process_and_speak_intake, hs, hk, hr', h]
  · have h2 : ¬ (ud.phone_retries < 2) := by omega
    simp +decide [process_and_speak_intake, hs, hk, hr', h2]
  · by_cases hv : (validate_phone_basic (pyStrip u)).1 = true
    · simp +decide [process_and_speak_intake, hs, hk, hr', hv]
    · by_cases h2 : ud.phone_retries < 2
      · simp +decide [process_and_speak_intake, hs, hk, hr', hv, h2, h]
      · simp +decide [process_and_speak_intake, hs, hk, hr', hv, h2]

/-- When `should_backchannel` fires, the turn number is at least 2 and at
least 2 turns past the recorded last use. -/
lemma should_backchannel_true {u : String} {turn last : Nat} {c : Bool}
    (h : should_backchannel u turn last c = true) : 2 ≤ turn ∧ last + 2 ≤ turn := by
  unfold should_backchannel at h
  split_ifs at h with h1 h2 h3 h4
  constructor <;> omega

/-- Invariant of a RAG-turn sequence: every fired turn number is at least
2, at least the starting turn count, and at least 2 past the starting
`last_used`; consecutive fired turns are at least 2 apart. -/
lemma rag_backchannel_run_ok (inputs : List (String × Bool)) (st : BCState) :
    (∀ t ∈ (rag_backchannel_run st inputs).2,
        2 ≤ t ∧ st.rag_turn_count ≤ t ∧ st.last_used + 2 ≤ t) ∧
    List.Chain' (fun a b => a + 2 ≤ b) (rag_backchannel_run st inputs).2 := by
  induction inputs generalizing st with
  | nil => simp [rag_backchannel_run]
  | cons p rest ih =>
    obtain ⟨q, c⟩ := p
    simp only [rag_backchannel_run, rag_turn_backchannel]
    by_cases hb : should_backchannel q st.rag_turn_count st.last_used c = true
    · obtain ⟨hb1, hb2⟩ := should_backchannel_true hb
      have ihs := ih { rag_turn_count := st.rag_turn_count + 1, last_used := st.rag_turn_count }
      simp only [hb, if_true, if_pos] at *
      constructor
      · intro t ht
        rcases List.mem_cons.mp ht with rfl | ht'
        · exact ⟨hb1, le_refl _, hb2⟩
        · have := ihs.1 t ht'
          exact ⟨this.1, by omega, by omega⟩
      · refine List.chain'_cons'.mpr ⟨?_, ihs.2⟩
        intro b hbmem
        have hmem : b ∈ (rag_backchannel_run
            { rag_turn_count := st.rag_turn_count + 1, last_used := st.rag_turn_count } rest).2 :=
          List.mem_of_mem_head? hbmem
        have := ihs.1 b hmem
        omega
    · have ihs := ih { st with rag_turn_count := st.rag_turn_count + 1 }
      simp only [hb, if_false, Bool.false_eq_true, if_neg] at *
      constructor
      · intro t ht
        have := ihs.1 t ht
        refine ⟨this.1, ?_, ?_⟩
        · simp at this
          omega
        · simp at this
          omega
      · exact ihs.2

/-- Upserting the same field/value twice equals upserting it once. -/
lemma dictUpsert_idem (l : Store) (f : String) (v : SValue) :
    dictUpsert (dictUpsert l f v) f v = dictUpsert l f v := by
  induction l with
  | nil => simp [dictUpsert]
  | cons kv rest ih =>
    obtain ⟨k, w⟩ := kv
    by_cases h : k = f
    · simp [dictUpsert, h]
    · simp [dictUpsert, h, ih]

/-- After an upsert, the upserted field holds the stored value. -/
lemma dictGet_upsert_self (l : Store) (f : String) (v : SValue) :
    dictGet (dictUpsert l f v) f = some v := by
  induction l with
  | nil => simp [dictUpsert, dictGet]
  | cons kv rest ih =>
    obtain ⟨k, w⟩ := kv
    by_cases h : k = f
    · simp [dictUpsert, dictGet, h]
    · simp [dictUpsert, dictGet, h, ih]

/-- An upsert leaves every other field unchanged. -/
lemma dictGet_upsert_ne (l : Store) (f : String) (v : SValue) (g : String)
    (h : g ≠ f) : dictGet (dictUpsert l f v) g = dictGet l g := by
  have h' : ¬ (f = g) := fun hh => h hh.symm
  induction l with
  | nil => simp [dictUpsert, dictGet, h']
  | cons kv rest ih =>
    obtain ⟨k, w⟩ := kv
    by_cases hk : k = f
    · subst hk
      simp [dictUpsert, dictGet, h']
    · simp [dictUpsert, dictGet, hk, ih]

/-- C1 (counterexample): on the concrete input `"asdf123"` while
collecting the name, the claim is false at every step: `is_stt_unclear`
returns unclear with reason `garbage_pattern` (not not-unclear),
`validate_name_basic` returns valid `ok` (not `too_many_numbers` — only
3 of 7 characters are digits, below the over-50% threshold), and the
system speaks the tier-1 name repair prompt, not a validation-retry
prompt. -/
theorem scenarioA_actual_counterexample :
    is_stt_unclear "asdf123" (some "name") = (true, "garbage_pattern") ∧
    validate_name_basic "asdf123" ≠ (false, "too_many_numbers") ∧
    validate_name_basic "asdf123" = (true, "ok") ∧
    (process_and_speak_intake schema0 co0 "asdf123" collectNameStart []).said =
      some "Sorry, I didn\x27t catch that. Could you please say your name again?" ∧
    (process_and_speak_intake schema0 co0 "asdf123" collectNameStart []).ud.name_repair_attempts
      = 1 ∧
    (process_and_speak_intake schema0 co0 "asdf123" collectNameStart []).store = [] := by
  decide

/-- C1 (amended): for the input `"asdf123"` received while collecting
the name with repair attempts 0, `validate_name_basic` returns valid
with reason `ok`, and because `is_stt_unclear` classifies the input as
unclear (`garbage_pattern`), the system speaks the tier-1 name repair
prompt and increments the repair counter — a repair prompt, not a
validation-retry prompt. -/
theorem scenarioA_amended (schema : String → Option String) (co : Collab)
    (ud : Userdata) (store : Store)
    (hs : ud.intake_state = "collecting")
    (hk : ud.intake_current_key = some "full_name")
    (hr : ud.name_repair_attempts = 0) :
    validate_name_basic "asdf123" = (true, "ok") ∧
    process_and_speak_intake schema co "asdf123" ud store =
      { ud := { ud with name_repair_attempts := 1 },
        store := store,
        said := some (get_repair_message "name" "garbage_pattern" 1) } := by
  refine ⟨by decide, ?_⟩
  have hreason : (is_stt_unclear (pyStrip "asdf123") (some "name")).2 = "garbage_pattern" := by
    decide
  rw [process_name_repair schema co "asdf123" ud store hs hk (by omega), hr, hreason]

/-- C1 (witness for the amended theorem). -/
theorem scenarioA_amended_witness :
    collectNameStart.intake_state = "collecting" ∧
    collectNameStart.intake_current_key = some "full_name" ∧
    collectNameStart.name_repair_attempts = 0 ∧
    (validate_name_basic "asdf123" = (true, "ok") ∧
     process_and_speak_intake schema0 co0 "asdf123" collectNameStart [] =
       { ud := { collectNameStart with name_repair_attempts := 1 },
         store := [],
         said := some (get_repair_message "name" "garbage_pattern" 1) }) :=
  ⟨rfl, rfl, rfl, scenarioA_amended schema0 co0 collectNameStart [] rfl rfl rfl⟩

/-- C2: every input whose stripped, lowercased form is non-empty and not
composed solely of the punctuation characters `.,!?;:-'` (spaces
ignored) is classified `(True, "garbage_pattern")` by `is_stt_unclear`,
for any field type: the empty-string entry of `STT_GARBAGE_PATTERNS`
matches every such text via the `startswith` check. -/
theorem garbage_pattern_matches_all (text : String) (ft : Option String)
    (hne : 0 < (pyLower (pyStrip text)).length)
    (hpunct : onlyPunct (pyLower (pyStrip text)) = false) :
    is_stt_unclear text ft = (true, "garbage_pattern") := by
  simp only [is_stt_unclear]
  rw [if_neg (by omega), if_neg (by simp [hpunct]), if_pos (matchesGarbage_true _)]

/-- C2 (witness): the perfectly ordinary utterance `"hello world"` is
classified as garbage. -/
theorem garbage_pattern_matches_all_witness :
    0 < (pyLower (pyStrip "hello world")).length ∧
    onlyPunct (pyLower (pyStrip "hello world")) = false ∧
    is_stt_unclear "hello world" none = (true, "garbage_pattern") :=
  ⟨by decide, by decide,
   garbage_pattern_matches_all "hello world" none (by decide) (by decide)⟩

/-- C3 (counterexample): starting in `Collecting(phone)` with counters
0, after three consecutive unclear utterances (`"hmm"` three times) the
third utterance is NOT accepted: the repair counter reaches 3, the
tier-3 repair prompt is spoken, nothing is saved, and the phase remains
`collecting` — not `confirm_info`. -/
theorem third_unclear_phone_not_accepted :
    (let st0 : Store := [("full_name", SValue.s "Ali")]
     let s1 := process_and_speak_intake schema0 co0 "hmm" (phoneRepairState 0) st0
     let s2 := process_and_speak_intake schema0 co0 "hmm" s1.ud s1.store
     let s3 := process_and_speak_intake schema0 co0 "hmm" s2.ud s2.store
     s3.ud.intake_state = "collecting" ∧ s3.ud.intake_state ≠ "confirm_info" ∧
     s3.ud.phone_repair_attempts = 3 ∧
     s3.store = st0 ∧ dictGet s3.store "phone" = none ∧
     s3.said =
       some "I apologize for the trouble. Let\x27s try one more time. Please speak clearly.") := by
  decide

/-- C3 (amended): starting in `Collecting(phone)` with counters 0, three
consecutive unclear utterances each take the repair branch — after the
third, the repair counter is 3, the tier-3 apology prompt has been
spoken, nothing is saved, and the phase is still `collecting` — and the
repair ceiling takes effect only on the fourth utterance, which bypasses
repair; if the LLM validator accepts it, the literal fourth input is
saved via `save_answer("phone", ...)` and the phase advances to
`confirm_info`. -/
theorem phone_repair_ceiling_amended (schema : String → Option String)
    (co1 co2 co3 co4 : Collab) (u1 u2 u3 u4 : String) (store : Store)
    (_h1 : (is_stt_unclear (pyStrip u1) (some "phone")).1 = true)
    (_h2 : (is_stt_unclear (pyStrip u2) (some "phone")).1 = true)
    (_h3 : (is_stt_unclear (pyStrip u3) (some "phone")).1 = true)
    (_h4 : (is_stt_unclear (pyStrip u4) (some "phone")).1 = true)
    (hllm : (validate_with_llm (pyStrip u4) "phone" co4.chat).1 = true) :
    let s1 := process_and_speak_intake schema co1 u1 (phoneRepairState 0) store
    let s2 := process_and_speak_intake schema co2 u2 s1.ud s1.store
    let s3 := process_and_speak_intake schema co3 u3 s2.ud s2.store
    let s4 := process_and_speak_intake schema co4 u4 s3.ud s3.store
    s3.ud.intake_state = "collecting" ∧ s3.ud.intake_current_key = some "phone" ∧
    s3.ud.phone_repair_attempts = 3 ∧ s3.store = store ∧
    s3.said =
      some "I apologize for the trouble. Let\x27s try one more time. Please speak clearly." ∧
    s4.ud.intake_state = "confirm_info" ∧
    s4.store = save_answer store "phone" (SValue.s (pyStrip u4)) := by
  have e1 : process_and_speak_intake schema co1 u1 (phoneRepairState 0) store =
      { ud := phoneRepairState 1, store := store,
        said := some "Sorry, I didn\x27t hear that clearly. Could you repeat your phone number slowly?" } :=
    process_phone_repair schema co1 u1 (phoneRepairState 0) store rfl rfl (by decide)
  have e2 : process_and_speak_intake schema co2 u2 (phoneRepairState 1) store =
      { ud := phoneRepairState 2, store := store,
        said := some "Please say each digit separately. For example: zero, three, zero, zero..." } :=
    process_phone_repair schema co2 u2 (phoneRepairState 1) store rfl rfl (by decide)
  have e3 : process_and_speak_intake schema co3 u3 (phoneRepairState 2) store =
      { ud := phoneRepairState 3, store := store,
        said := some "I apologize for the trouble. Let\x27s try one more time. Please speak clearly." } :=
    process_phone_repair schema co3 u3 (phoneRepairState 2) store rfl rfl (by decide)
  have e4 := process_phone_accept schema co4 u4 (phoneRepairState 3) store rfl rfl
    (by decide) (Or.inr (Or.inr hllm))
  dsimp only
  rw [e1]
  dsimp only
  rw [e2]
  dsimp only
  rw [e3]
  dsimp only
  exact ⟨rfl, rfl, rfl, rfl, rfl, e4.1, e4.2.2.2.2⟩

/-- C3 (witness for the amended theorem): four `"hmm"` utterances with a
`"YES"`-replying LLM validator on the fourth. -/
theorem phone_repair_ceiling_amended_witness :
    (is_stt_unclear (pyStrip "hmm") (some "phone")).1 = true ∧
    (validate_with_llm (pyStrip "hmm") "phone" co0.chat).1 = true ∧
    (let s1 := process_and_speak_intake schema0 co0 "hmm" (phoneRepairState 0) []
     let s2 := process_and_speak_intake schema0 co0 "hmm" s1.ud s1.store
     let s3 := process_and_speak_intake schema0 co0 "hmm" s2.ud s2.store
     let s4 := process_and_speak_intake schema0 co0 "hmm" s3.ud s3.store
     s3.ud.intake_state = "collecting" ∧ s3.ud.intake_current_key = some "phone" ∧
     s3.ud.phone_repair_attempts = 3 ∧ s3.store = [] ∧
     s3.said =
       some "I apologize for the trouble. Let\x27s try one more time. Please speak clearly." ∧
     s4.ud.intake_state = "confirm_info" ∧
     s4.store = save_answer [] "phone" (SValue.s (pyStrip "hmm"))) :=
  ⟨by decide, by decide,
   phone_repair_ceiling_amended schema0 co0 co0 co0 co0 "hmm" "hmm" "hmm" "hmm" []
     (by decide) (by decide) (by decide) (by decide) (by decide)⟩

/-- C4 (counterexample): in `confirm_info`, the input `"nahi galat hai"`
contains the negative tokens `"nahi"` and `"galat"`, yet the phase
transitions to `medical_history`, not `ask_correction`: the affirmative
check runs first and the substring `"hai"` is in the affirmative token
list. -/
theorem nahi_galat_hai_goes_medical_history :
    containsAny (pyStrip (pyLower "nahi galat hai")) confirm_no_words = true ∧
    (process_and_speak_intake schema0 co0 "nahi galat hai" confirmInfoState []).ud.intake_state
      = "medical_history" ∧
    (process_and_speak_intake schema0 co0 "nahi galat hai" confirmInfoState []).ud.intake_state
      ≠ "ask_correction" ∧
    (process_and_speak_intake schema0 co0 "nahi galat hai" confirmInfoState []).said =
      some "Perfect! Do you have any medical history or previous reports to share? Please say yes or no." := by
  decide

/-- C4 (amended): in `confirm_info`, an utterance containing a negative
token transitions to `ask_correction` only when it contains no
affirmative token, because the affirmative check runs first;
`"nahi galat hai"` contains the affirmative substring `"hai"` and is
treated as a confirmation. -/
theorem confirm_negative_needs_no_affirmative (schema : String → Option String)
    (co : Collab) (u : String) (ud : Userdata) (store : Store)
    (hs : ud.intake_state = "confirm_info")
    (hneg : containsAny (pyStrip (pyLower u)) confirm_no_words = true)
    (haff : containsAny (pyStrip (pyLower u)) confirm_yes_words = false) :
    (process_and_speak_intake schema co u ud store).ud.intake_state = "ask_correction" ∧
    (process_and_speak_intake schema co u ud store).ud.intake_current_key
      = some "ask_correction" ∧
    (process_and_speak_intake schema co u ud store).store = store ∧
    (process_and_speak_intake schema co u ud store).said =
      some "No problem. What would you like to correct - your name or phone number?" := by
  simp +decide [process_and_speak_intake, hs, hneg, haff]

/-- C4 (witness for the amended theorem): `"wrong"` is negative and
contains no affirmative token, so it does reach `ask_correction`. -/
theorem confirm_negative_needs_no_affirmative_witness :
    confirmInfoState.intake_state = "confirm_info" ∧
    containsAny (pyStrip (pyLower "wrong")) confirm_no_words = true ∧
    containsAny (pyStrip (pyLower "wrong")) confirm_yes_words = false ∧
    ((process_and_speak_intake schema0 co0 "wrong" confirmInfoState []).ud.intake_state
        = "ask_correction" ∧
     (process_and_speak_intake schema0 co0 "wrong" confirmInfoState []).ud.intake_current_key
        = some "ask_correction" ∧
     (process_and_speak_intake schema0 co0 "wrong" confirmInfoState []).store = [] ∧
     (process_and_speak_intake schema0 co0 "wrong" confirmInfoState []).said =
       some "No problem. What would you like to correct - your name or phone number?") :=
  ⟨rfl, by decide, by decide,
   confirm_negative_needs_no_affirmative schema0 co0 "wrong" confirmInfoState []
     rfl (by decide) (by decide)⟩

/-- C5 (counterexample): in `medical_history`, the ambiguous utterance
`"maybe"` (neither affirmative nor negative) is NOT a no-op re-prompt:
`has_medical_history = False` is saved and the phase advances to `rag`. -/
theorem medical_history_ambiguous_goes_rag :
    (process_and_speak_intake schema0 co0 "maybe" medicalHistoryState []).ud.intake_state
      = "rag" ∧
    (process_and_speak_intake schema0 co0 "maybe" medicalHistoryState []).ud.intake_state
      ≠ "medical_history" ∧
    (process_and_speak_intake schema0 co0 "maybe" medicalHistoryState []).store
      = [("has_medical_history", SValue.b false)] := by
  decide

/-- C5 (amended): in `medical_history`, every utterance is resolved
immediately by affirmative-token containment alone: the boolean verdict
is always saved as `has_medical_history`, affirmative input advances to
`waiting_upload`, and all other input — negative or ambiguous alike —
advances to `rag`; the phase never stays `medical_history` and there is
no re-prompt. -/
theorem medical_history_always_resolves (schema : String → Option String)
    (co : Collab) (u : String) (ud : Userdata) (store : Store)
    (hs : ud.intake_state = "medical_history") :
    (process_and_speak_intake schema co u ud store).store =
      save_answer store "has_medical_history"
        (SValue.b (containsAny (pyStrip (pyLower u)) medical_yes_words)) ∧
    (process_and_speak_intake schema co u ud store).ud.intake_state =
      (if containsAny (pyStrip (pyLower u)) medical_yes_words = true
       then "waiting_upload" else "rag") ∧
    (process_and_speak_intake schema co u ud store).ud.intake_state ≠ "medical_history" := by
  by_cases h : containsAny (pyStrip (pyLower u)) medical_yes_words = true
  · simp +decide [process_and_speak_intake, hs, h]
  · simp +decide [process_and_speak_intake, hs, h]

/-- C5 (witness for the amended theorem), at the ambiguous input
`"maybe"`. -/
theorem medical_history_always_resolves_witness :
    medicalHistoryState.intake_state = "medical_history" ∧
    ((process_and_speak_intake schema0 co0 "maybe" medicalHistoryState []).store =
       save_answer [] "has_medical_history"
         (SValue.b (containsAny (pyStrip (pyLower "maybe")) medical_yes_words)) ∧
     (process_and_speak_intake schema0 co0 "maybe" medicalHistoryState []).ud.intake_state =
       (if containsAny (pyStrip (pyLower "maybe")) medical_yes_words = true
        then "waiting_upload" else "rag") ∧
     (process_and_speak_intake schema0 co0 "maybe" medicalHistoryState []).ud.intake_state
       ≠ "medical_history") :=
  ⟨rfl, medical_history_always_resolves schema0 co0 "maybe" medicalHistoryState [] rfl⟩

/-- C6 (code evaluated at the failing input): with the name
validation-retry counter at its ceiling 2 and repair attempts 0, the
clearly-transcribed name `"John Smith"` — which the basic validator
accepts — is NOT force-accepted and saved: `is_stt_unclear` classifies
it (like every utterance) as `garbage_pattern` unclear, so the repair
branch fires first, a repair prompt is spoken, nothing is saved, and the
retry counter stays 2. -/
theorem retry_ceiling_defeated_by_unclear_bug :
    validate_name_basic "John Smith" = (true, "ok") ∧
    is_stt_unclear "John Smith" (some "name") = (true, "garbage_pattern") ∧
    (process_and_speak_intake schema0 co0 "John Smith" nameRetry2State []).said =
      some "Sorry, I didn\x27t catch that. Could you please say your name again?" ∧
    (process_and_speak_intake schema0 co0 "John Smith" nameRetry2State []).store = [] ∧
    (process_and_speak_intake schema0 co0 "John Smith" nameRetry2State []).ud.intake_state
      = "collecting" ∧
    (process_and_speak_intake schema0 co0 "John Smith" nameRetry2State []).ud.intake_current_key
      = some "full_name" ∧
    (process_and_speak_intake schema0 co0 "John Smith" nameRetry2State []).ud.name_retries = 2 := by
  decide

/-- C7: for every candidate value and field type, if the generative-model
call inside `validate_with_llm` raises (any error or timeout),
`validate_with_llm` returns `is_valid = True` with reason
`"error_fallback"` — the value is accepted (fail-open). -/
theorem validate_with_llm_fail_open (value field_type err : String) :
    validate_with_llm value field_type (Except.error err) = (true, "error_fallback") :=
  rfl

/-- C8: over any sequence of RAG-mode turns from the initial counters, a
backchannel is never prepended on a turn number below 2, and the turn
numbers of consecutive backchannels are at least 2 apart. -/
theorem backchannel_rate_limited (inputs : List (String × Bool)) :
    (∀ t ∈ (rag_backchannel_run {} inputs).2, 2 ≤ t) ∧
    List.Chain' (fun a b => a + 2 ≤ b) (rag_backchannel_run {} inputs).2 := by
  have h := rag_backchannel_run_ok inputs {}
  exact ⟨fun t ht => (h.1 t ht).1, h.2⟩

/-- C8 (witness): on the demo inputs a backchannel fires exactly on turn
2, and the theorem applies to it. -/
theorem backchannel_rate_limited_witness :
    (rag_backchannel_run {} bcDemoInputs).2 = [2] ∧ 2 ≤ 2 ∧
    List.Chain' (fun a b => a + 2 ≤ b) (rag_backchannel_run {} bcDemoInputs).2 :=
  ⟨by decide, (backchannel_rate_limited bcDemoInputs).1 2 (by decide),
   (backchannel_rate_limited bcDemoInputs).2⟩

/-- C9: `save_answer` is an idempotent upsert — saving the same
field/value twice leaves the session's `collected_data` (as returned by
`get_session`) identical to saving it once, the field holds the single
stored value, and no other entry changes. -/
theorem save_answer_idempotent (sess : ConversationSession) (f : String) (v : SValue) :
    route_save_answer (route_save_answer sess f v) f v = route_save_answer sess f v ∧
    dictGet (route_get_collected_data (route_save_answer sess f v)) f = some v ∧
    ∀ g, g ≠ f →
      dictGet (route_get_collected_data (route_save_answer sess f v)) g =
        dictGet (route_get_collected_data sess) g := by
  refine ⟨?_, dictGet_upsert_self _ _ _, fun g hg => dictGet_upsert_ne _ _ _ _ hg⟩
  simp [route_save_answer, dictUpsert_idem]

/-- C9 (witness), on a concrete session, field and value. -/
theorem save_answer_idempotent_witness :
    ("full_name" : String) ≠ "phone" ∧
    route_save_answer (route_save_answer demoSession "phone" (SValue.s "03001234567"))
        "phone" (SValue.s "03001234567")
      = route_save_answer demoSession "phone" (SValue.s "03001234567") ∧
    dictGet (route_get_collected_data
        (route_save_answer demoSession "phone" (SValue.s "03001234567"))) "phone"
      = some (SValue.s "03001234567") ∧
    dictGet (route_get_collected_data
        (route_save_answer demoSession "phone" (SValue.s "03001234567"))) "full_name"
      = dictGet (route_get_collected_data demoSession) "full_name" :=
  ⟨by decide,
   (save_answer_idempotent demoSession "phone" (SValue.s "03001234567")).1,
   (save_answer_idempotent demoSession "phone" (SValue.s "03001234567")).2.1,
   (save_answer_idempotent demoSession "phone" (SValue.s "03001234567")).2.2
     "full_name" (by decide)⟩

/-- C10: in `ask_correction`, every utterance whose lowercased text
contains the substring `"no"` and none of `"name"`, `"naam"`,
`"my name"`, `"both"`, `"dono"`, `"sab"` transitions to phone
re-collection (phase `collecting`, key `phone`), because `"no"` is in
the phone keyword list and matching is by substring containment. -/
theorem ask_correction_no_selects_phone (schema : String → Option String)
    (co : Collab) (u : String) (ud : Userdata) (store : Store)
    (hs : ud.intake_state = "ask_correction")
    (hno : strContains (pyStrip (pyLower u)) "no" = true)
    (hname : strContains (pyStrip (pyLower u)) "name" = false)
    (hnaam : strContains (pyStrip (pyLower u)) "naam" = false)
    (hmy : strContains (pyStrip (pyLower u)) "my name" = false)
    (hboth : strContains (pyStrip (pyLower u)) "both" = false)
    (hdono : strContains (pyStrip (pyLower u)) "dono" = false)
    (hsab : strContains (pyStrip (pyLower u)) "sab" = false) :
    (process_and_speak_intake schema co u ud store).ud.intake_state = "collecting" ∧
    (process_and_speak_intake schema co u ud store).ud.intake_current_key = some "phone" ∧
    (process_and_speak_intake schema co u ud store).store = store ∧
    (process_and_speak_intake schema co u ud store).said =
      some "Okay, please tell me your correct phone number." := by
  simp +decide [process_and_speak_intake, containsAny, correction_name_words,
    correction_phone_words, correction_both_words, hs, hno, hname, hnaam, hmy,
    hboth, hdono, hsab]

/-- C10 (witness): `"not sure"` contains `"no"` (inside `"not"`) and no
name/both keyword, so it re-collects the phone. -/
theorem ask_correction_no_selects_phone_witness :
    askCorrectionState.intake_state = "ask_correction" ∧
    strContains (pyStrip (pyLower "not sure")) "no" = true ∧
    ((process_and_speak_intake schema0 co0 "not sure" askCorrectionState []).ud.intake_state
        = "collecting" ∧
     (process_and_speak_intake schema0 co0 "not sure" askCorrectionState []).ud.intake_current_key
        = some "phone" ∧
     (process_and_speak_intake schema0 co0 "not sure" askCorrectionState []).store = [] ∧
     (process_and_speak_intake schema0 co0 "not sure" askCorrectionState []).said =
       some "Okay, please tell me your correct phone number.") :=
  ⟨rfl, by decide,
   ask_correction_no_selects_phone schema0 co0 "not sure" askCorrectionState [] rfl
     (by decide) (by decide) (by decide) (by decide) (by decide) (by decide) (by decide)⟩

end IntakeAgent
